import Mathlib

/-!
Verification of the table-driven address resolver and CLI glue of `ssh.py`.

The embedding models the program at the level of its data:

* An HTML document, after `BeautifulSoup(html).find_all('table')`, is a list
  of tables in document order.  Each table either parses into a grid
  (`pd.read_html` succeeds, giving a header row and data rows) or fails to
  parse.  We model a document as `List (Option HtmlTable)`, where `none`
  stands for a table on which `pd.read_html(str(table))` raises.  Cells are
  modelled at two levels: `HtmlTable` holds each cell's raw text, which
  suffices for the claims about header lookup, matching order and error
  flow; `PdTable` (further below) holds the values pandas actually parses
  cells into — `NaN` for empty fields, integers for numeric-inferred
  columns, stripped text otherwise — for the claims those conversions
  decide.
* `find_server_ip` (src/ssh.py lines 67-99) walks that list.  For each
  parsed table it strips the header labels, locates `hostname_column` among
  them (a miss is a `KeyError`, caught by the inner handler, which moves on
  to the next table), filters rows whose stripped hostname cell equals the
  raw `server_name`, and if a row matched looks up `ip_column`
  (again `KeyError` → next table) and returns that row's cell, stripped.
  A table that fails to parse raises out of the inner handler into the
  outer `except Exception`, which prints "Error parsing table data: ..."
  and returns `None`.  We record the printed lines alongside the result.
* `main` (lines 114-169) is modelled as a function of `sys.argv` and the
  outcomes of its external collaborators (config file, environment
  credentials, Confluence fetch), returning either a process exit with its
  printed lines or the `subprocess.run` invocation of `/bin/bash`.
-/

/-- Python string `.strip()` (and pandas `.str.strip()`): remove leading
and trailing whitespace.  (Lean's `String.trim` computes the same string
but is built on `Substring` loops the kernel cannot reduce, so the
character-list form is used throughout.) -/
def pyStrip (s : String) : String :=
  String.mk
    (((s.data.dropWhile Char.isWhitespace).reverse.dropWhile
        Char.isWhitespace).reverse)

/-- One parsed HTML table at the text level: a header row and data rows,
each cell as its raw text.  This view elides the value parsing
`pd.read_html` performs on cells (stripping, empty field → `NaN`,
numeric column inference) — see `PdTable` below for the refined view
used where those conversions matter. -/
structure HtmlTable where
  headers : List String
  rows : List (List String)
deriving Repr, DecidableEq

/-- Result of `find_server_ip` together with the lines it printed. -/
structure ResolveOutput where
  result : Option String
  printed : List String
deriving Repr, DecidableEq

/-- Per-table body of the loop in `find_server_ip` (src/ssh.py lines 75-93):
strip the header labels (`df.columns.str.strip()`), look up
`hostname_column` (`KeyError` → `none`, caller moves to the next table),
take the first row whose stripped hostname cell equals `server_name`
(note: the query is used as given, not stripped), and if one matched look
up `ip_column` (`KeyError` → `none`) and return its cell, stripped.
This is the text-level view; `pdTableResult` below refines the cell
semantics to the values pandas hands the program. -/
def tableResult (t : HtmlTable) (server_name hostname_column ip_column : String) :
    Option String :=
  match (t.headers.map pyStrip).findIdx? (fun s => s = hostname_column) with
  | none => none
  | some hIdx =>
    match t.rows.find? (fun row => pyStrip (row.getD hIdx "") = server_name) with
    | none => none
    | some row =>
      match (t.headers.map pyStrip).findIdx? (fun s => s = ip_column) with
      | none => none
      | some ipIdx => some (pyStrip (row.getD ipIdx ""))

/-- The line printed by the outer `except Exception` handler of
`find_server_ip` (src/ssh.py line 98); the suffix after the colon carries
the exception text, which the model elides. -/
def parseErrorMsg : String := "Error parsing table data"

/-- `find_server_ip` (src/ssh.py lines 67-99): scan the tables in document
order; a successful per-table lookup returns immediately; a table whose
columns miss raises `KeyError`, caught and skipped; a table that fails to
parse raises into the outer handler, which prints an error and returns
`None` without looking at later tables; an exhausted scan returns `None`. -/
def find_server_ip :
    List (Option HtmlTable) → String → String → String → ResolveOutput
  | [], _, _, _ => ⟨none, []⟩
  | none :: _, _, _, _ => ⟨none, [parseErrorMsg]⟩
  | some t :: rest, server_name, hostname_column, ip_column =>
    match tableResult t server_name hostname_column ip_column with
    | some ip => ⟨some ip, []⟩
    | none => find_server_ip rest server_name hostname_column ip_column

/-- A single apostrophe character, used in printed messages. -/
def squote : String := (Char.ofNat 39).toString

/-- The `confluence` section of `config.yaml`, after `validate_config`
has checked that all four required fields are present
(src/ssh.py lines 101-112). -/
structure Config where
  url : String
  page_id : String
  hostname_column_title : String
  ip_column_title : String
deriving Repr, DecidableEq

/-- Outcomes of the external collaborators `main` consults, in call order:
`read_config`/`validate_config` (an error carries the printed message),
the `OKTA_USER`/`OKTA_PASSWORD` environment lookup inside
`authenticate_confluence`, and the page fetch `get_page_content`, whose
successful body is the document as its list of per-table parse outcomes. -/
structure Externals where
  readConfig : Except String Config
  env : Except String (String × String)
  fetch : Except String (List (Option HtmlTable))

/-- Observable outcome of a `main` run: a process exit with its printed
lines, or the `subprocess.run(['/bin/bash', ...])` invocation
(src/ssh.py lines 165-169) with the lines printed before it. -/
inductive ProcResult where
  | exit (code : Nat) (printed : List String)
  | launch (argvList : List String) (printed : List String)
deriving Repr, DecidableEq

/-- Usage line printed when the argument count is wrong
(src/ssh.py line 117). -/
def usageMsg : String := "Usage: python script.py <server-name>"

/-- The lines `print_config` emits (src/ssh.py lines 32-37). -/
def printConfigLines (c : Config) : List String :=
  ["Confluence URL: " ++ c.url,
   "Page ID: " ++ c.page_id,
   "Hostname Column: " ++ c.hostname_column_title,
   "IP Column: " ++ c.ip_column_title]

/-- Python truthiness of the resolver result as used by
`if not ip_address:` (src/ssh.py line 150): `None` and the empty string
are both falsy. -/
def pyFalsy : Option String → Bool
  | none => true
  | some s => s = ""

/-- The message of `print(f"Server one_quoted_name not found")`
(src/ssh.py line 151). -/
def notFoundMsg (server_name : String) : String :=
  "Server " ++ squote ++ server_name ++ squote ++ " not found"

/-- The message of `print(f"IP Address for ...")` (src/ssh.py line 154). -/
def ipFoundMsg (server_name ip : String) : String :=
  "IP Address for " ++ server_name ++ ": " ++ ip

/-- The fixed text of the retry-loop f-string after the interpolated
address (src/ssh.py lines 158-162); the closing triple quote swallows the
final double quote, so the text ends after `established.`. -/
def sshLoopSuffix : String :=
  "; do\n      echo \"Connection failed, retrying in 5 seconds...\"\n      sleep 5\n    done\n    echo \"Connection established."

/-- The retry-loop shell command built by the f-string at
src/ssh.py lines 158-162; the resolved address is interpolated directly
after `ssh `. -/
def sshCommand (ip : String) : String :=
  "while ! ssh " ++ ip ++ sshLoopSuffix

/-- The argument list handed to `subprocess.run`
(src/ssh.py line 166): `['/bin/bash', '-i', '-c', f'...; exec bash']`. -/
def bashArgv (ip : String) : List String :=
  ["/bin/bash", "-i", "-c", sshCommand ip ++ "; exec bash"]

/-- `main` (src/ssh.py lines 114-169) as a function of `sys.argv` and the
collaborator outcomes: argument-count check first, then config loading
and validation, `print_config`, credential check, page fetch,
`find_server_ip`, the falsy check on its result, and finally the bash
invocation.  Every failure path exits with code 1 after printing its
message.  (Named `main_run` because Lean reserves `main` for an `IO`
entry point.) -/
def main_run (argv : List String) (ext : Externals) : ProcResult :=
  if argv.length ≠ 2 then ProcResult.exit 1 [usageMsg]
  else
    let server_name := argv.getD 1 ""
    match ext.readConfig with
    | Except.error msg => ProcResult.exit 1 [msg]
    | Except.ok config =>
      match ext.env with
      | Except.error msg => ProcResult.exit 1 (printConfigLines config ++ [msg])
      | Except.ok _ =>
        match ext.fetch with
        | Except.error msg =>
          ProcResult.exit 1 (printConfigLines config ++ [msg])
        | Except.ok doc =>
          let r := find_server_ip doc server_name
            config.hostname_column_title config.ip_column_title
          if pyFalsy r.result then
            ProcResult.exit 1
              (printConfigLines config ++ r.printed
                ++ [notFoundMsg server_name])
          else
            ProcResult.launch (bashArgv (r.result.getD ""))
              (printConfigLines config ++ r.printed
                ++ [ipFoundMsg server_name (r.result.getD "")])

/-! ## Refined cell model: pandas values

`HtmlTable` treats cells as the raw text found in the HTML, which is
adequate for the claims about header lookup, matching order and error
flow.  `pd.read_html` does not hand the program raw text, however: the
parser strips each cell's text and turns empty fields into `NaN`, and
the `TextParser` column inference turns a column whose every non-empty
cell looks numeric into a numeric column — with the default
`thousands=','`, the text `007` parses to the integer `7` and `1,234`
to `1234`.  Where those value conversions decide a claim, the refined
model below is used: a `PdTable` is a DataFrame whose cells carry the
parsed values.  The inference computation itself is the library's; its
outcome is part of the model's input, just as each table's parse outcome
already is.  Floating-point (and boolean) inference is left outside the
model — `str()` of a float is float formatting — so integer columns
witness the coercion. -/

/-- A parsed pandas cell: an empty field (`NaN`), a value in an
integer-inferred column, or the text of a cell in an object column,
which the parser has already stripped. -/
inductive PdCell where
  | nan
  | intVal (n : Int)
  | strVal (s : String)
deriving Repr, DecidableEq

/-- Python `str()` of a pandas cell value, as applied at src/ssh.py
line 90: `NaN` prints `nan`; an integer prints its decimal digits, so
leading zeros and thousands separators of the original text are gone; a
string prints as itself. -/
def pdStr : PdCell → String
  | PdCell.nan => "nan"
  | PdCell.intVal n => toString n
  | PdCell.strVal s => s

/-- `HtmlTable` refined: a DataFrame produced by `pd.read_html`, its
cells carrying parsed values rather than raw text. -/
structure PdTable where
  headers : List String
  rows : List (List PdCell)
deriving Repr, DecidableEq

/-- Whether a DataFrame column supports the `.str` accessor, i.e. has
object (string) dtype.  A column from `read_html` is object dtype when
it holds at least one string cell (or the frame has no rows); on a
numeric or all-`NaN` column, `.str.strip()` raises `AttributeError`,
which the `except KeyError` of src/ssh.py line 91 does not catch. -/
def pdColIsObject (cells : List PdCell) : Bool :=
  cells.isEmpty ||
    cells.any (fun c => match c with | PdCell.strVal _ => true | _ => false)

/-- One entry of the row mask `df[hostname_column].str.strip() ==
server_name` (src/ssh.py line 85) over an object column: a string cell
is stripped and compared with the query as given; `NaN` compares
unequal to everything. -/
def pdCellMatches (c : PdCell) (server_name : String) : Bool :=
  match c with
  | PdCell.strVal s => pyStrip s = server_name
  | _ => false

/-- Outcome of the loop body of `find_server_ip` on one table in the
refined model: an address found (immediate return), a `KeyError` or an
empty filter (continue with the next table), or a non-`KeyError`
exception — the `.str` accessor's `AttributeError` on a non-object
column — which escapes to the outer handler. -/
inductive PdTableOutcome where
  | found (ip : String)
  | next
  | raise
deriving Repr, DecidableEq

/-- `tableResult` refined to parsed cells (src/ssh.py lines 75-93):
strip the header labels, look up `hostname_column` (`KeyError` → next
table); apply `.str.strip()` to that column (`AttributeError` on a
non-object column → outer handler); take the first row whose cell
matches; look up `ip_column` (`KeyError` → next table) and return
`str()` of that row's parsed address cell, stripped. -/
def pdTableResult (t : PdTable) (server_name hostname_column ip_column : String) :
    PdTableOutcome :=
  match (t.headers.map pyStrip).findIdx? (fun s => s = hostname_column) with
  | none => PdTableOutcome.next
  | some hIdx =>
    match pdColIsObject (t.rows.map (fun row => row.getD hIdx PdCell.nan)) with
    | false => PdTableOutcome.raise
    | true =>
      match t.rows.find?
          (fun row => pdCellMatches (row.getD hIdx PdCell.nan) server_name) with
      | none => PdTableOutcome.next
      | some row =>
        match (t.headers.map pyStrip).findIdx? (fun s => s = ip_column) with
        | none => PdTableOutcome.next
        | some ipIdx =>
          PdTableOutcome.found (pyStrip (pdStr (row.getD ipIdx PdCell.nan)))

/-- `find_server_ip` over the refined cell model (src/ssh.py lines
67-99): the same scan as `find_server_ip`, with the `AttributeError` of
a non-object hostname column joining a parse failure in the outer
print-and-return-`None` handler. -/
def find_server_ip_pd :
    List (Option PdTable) → String → String → String → ResolveOutput
  | [], _, _, _ => ⟨none, []⟩
  | none :: _, _, _, _ => ⟨none, [parseErrorMsg]⟩
  | some t :: rest, server_name, hostname_column, ip_column =>
    match pdTableResult t server_name hostname_column ip_column with
    | PdTableOutcome.found ip => ⟨some ip, []⟩
    | PdTableOutcome.raise => ⟨none, [parseErrorMsg]⟩
    | PdTableOutcome.next => find_server_ip_pd rest server_name hostname_column ip_column

/-- A cell as `read_html` can actually produce it: string cells carry
parser-stripped, non-empty text (an empty or whitespace-only field
becomes `NaN` instead). -/
def pdCellWf : PdCell → Bool
  | PdCell.strVal s => pyStrip s = s && s ≠ ""
  | _ => true

/-- Every cell of every parsed table of the document is producible by
`read_html`. -/
def pdDocWf (doc : List (Option PdTable)) : Bool :=
  doc.all (fun o => match o with
    | some t => t.rows.all (fun row => row.all pdCellWf)
    | none => true)

/-! ## General lemmas about the resolver loop -/

/-- A parsed table whose lookup fails is skipped: the scan continues on
the remaining tables and nothing is printed for it. -/
theorem find_server_ip_cons_none (t : HtmlTable)
    (rest : List (Option HtmlTable)) (q hc ac : String)
    (h : tableResult t q hc ac = none) :
    find_server_ip (some t :: rest) q hc ac = find_server_ip rest q hc ac := by
  simp [find_server_ip, h]

/-- A parsed table whose lookup succeeds returns immediately with nothing
printed. -/
theorem find_server_ip_cons_some (t : HtmlTable)
    (rest : List (Option HtmlTable)) (q hc ac a : String)
    (h : tableResult t q hc ac = some a) :
    find_server_ip (some t :: rest) q hc ac = ⟨some a, []⟩ := by
  simp [find_server_ip, h]

/-- A prefix of parsed tables whose lookups all fail is skipped wholesale. -/
theorem find_server_ip_skip (pre rest : List (Option HtmlTable))
    (q hc ac : String)
    (h : ∀ x ∈ pre, ∃ t, x = some t ∧ tableResult t q hc ac = none) :
    find_server_ip (pre ++ rest) q hc ac = find_server_ip rest q hc ac := by
  induction pre with
  | nil => rfl
  | cons x pre ih =>
    obtain ⟨t, rfl, ht⟩ := h x (List.mem_cons_self _ _)
    rw [List.cons_append, find_server_ip_cons_none _ _ _ _ _ ht]
    exact ih fun y hy => h y (List.mem_cons_of_mem _ hy)

/-- `find?` returns the element at position `j` when every earlier element
fails the predicate and the one at `j` passes it. -/
theorem find?_first {α : Type} (p : α → Bool) (d : α) :
    ∀ (l : List α) (j : Nat), j < l.length →
      (∀ r, r < j → p (l.getD r d) = false) → p (l.getD j d) = true →
      l.find? p = some (l.getD j d) := by
  intro l
  induction l with
  | nil => intro j hj _ _; exact absurd hj (by simp)
  | cons a l ih =>
    intro j hj hpre hq
    cases j with
    | zero =>
      rw [List.getD_cons_zero] at hq ⊢
      exact List.find?_cons_of_pos _ hq
    | succ j =>
      have h0 : p a = false := by
        have h1 := hpre 0 (Nat.succ_pos j)
        rwa [List.getD_cons_zero] at h1
      rw [List.getD_cons_succ]
      rw [List.find?_cons_of_neg _ (by simp [h0])]
      refine ih j (by simpa using hj) (fun r hr => ?_)
        (by rwa [List.getD_cons_succ] at hq)
      have h2 := hpre (r + 1) (Nat.succ_lt_succ hr)
      rwa [List.getD_cons_succ] at h2

/-- `tableResult` on a table whose stripped headers locate both columns
and whose first matching row sits at index `j`: the stripped address cell
of that row comes back. -/
theorem tableResult_first_row (t : HtmlTable) (q hc ac : String)
    (hIdx acIdx j : Nat)
    (hh : (t.headers.map pyStrip).findIdx? (fun s => s = hc) = some hIdx)
    (ha : (t.headers.map pyStrip).findIdx? (fun s => s = ac) = some acIdx)
    (hj : j < t.rows.length)
    (hpre : ∀ r, r < j → pyStrip ((t.rows.getD r []).getD hIdx "") ≠ q)
    (hq : pyStrip ((t.rows.getD j []).getD hIdx "") = q) :
    tableResult t q hc ac = some (pyStrip ((t.rows.getD j []).getD acIdx "")) := by
  have hfind : t.rows.find? (fun row => pyStrip (row.getD hIdx "") = q)
      = some (t.rows.getD j []) := by
    refine find?_first _ _ _ j hj (fun r hr => ?_) (by simpa using hq)
    simpa using hpre r hr
  simp only [tableResult, hh, hfind, ha]

/-! ## Claims -/

/-- C1 as stated is false: the code strips the table cell but uses the
query `server_name` exactly as given, so a query with surrounding
whitespace does not match the cell it would match after trimming.
Refuted at the claim's own example: query `" web01 "` against cell
`"web01"` misses, while the mirror image (raw query, padded cell) hits. -/
theorem c1_counterexample :
    (find_server_ip [some ⟨["Hostname", "IP"], [["web01", "10.0.0.5"]]⟩]
        " web01 " "Hostname" "IP").result = none ∧
    (find_server_ip [some ⟨["Hostname", "IP"], [[" web01 ", "10.0.0.5"]]⟩]
        "web01" "Hostname" "IP").result = some "10.0.0.5" := by
  decide

/-- C1 amended: on a one-table, one-row document whose (trim-stable,
distinct) headers are the configured columns, the lookup succeeds exactly
when the stripped hostname cell equals the query as given — the cell is
trimmed, the query is not, and the string comparison is case-sensitive. -/
theorem c1_cell_stripped_query_raw (q c addr hcol acol : String)
    (hhc : pyStrip hcol = hcol) (hac : pyStrip acol = acol)
    (hne : hcol ≠ acol) :
    (find_server_ip [some ⟨[hcol, acol], [[c, addr]]⟩] q hcol acol).result
      = if pyStrip c = q then some (pyStrip addr) else none := by
  by_cases hm : pyStrip c = q
  · rw [if_pos hm]
    have ht : tableResult ⟨[hcol, acol], [[c, addr]]⟩ q hcol acol
        = some (pyStrip addr) := by
      simp [tableResult, hhc, hac, hm, hne]
    rw [find_server_ip_cons_some _ _ _ _ _ _ ht]
  · rw [if_neg hm]
    have ht : tableResult ⟨[hcol, acol], [[c, addr]]⟩ q hcol acol = none := by
      simp [tableResult, hhc, hac, hm, hne]
    rw [find_server_ip_cons_none _ _ _ _ _ ht]
    rfl

/-- Witness for the amended C1 at its concrete example. -/
theorem c1_cell_stripped_query_raw_witness :
    (find_server_ip [some ⟨["Hostname", "IP"], [["web01", "10.0.0.5"]]⟩]
        " web01 " "Hostname" "IP").result = none := by
  have h := c1_cell_stripped_query_raw " web01 " "web01" "10.0.0.5"
    "Hostname" "IP" (by decide) (by decide) (by decide)
  exact h.trans (by decide)

/-- C2 as stated is false: a structurally unparseable table is not
skipped.  It raises out of the per-table `KeyError` handler into the
outer `except Exception`, which returns `None` at once, so a later table
holding the answer is never consulted. -/
theorem c2_counterexample :
    (find_server_ip [none, some ⟨["Hostname", "IP"], [["web01", "10.0.0.5"]]⟩]
        "web01" "Hostname" "IP").result = none ∧
    (find_server_ip [some ⟨["Hostname", "IP"], [["web01", "10.0.0.5"]]⟩]
        "web01" "Hostname" "IP").result = some "10.0.0.5" := by
  decide

/-- C2 amended: the resolver never raises, and tables whose columns do not
match are skipped, but the first table that fails to parse aborts the
whole scan — an error line is printed and the result is absent no matter
what the remaining tables hold. -/
theorem c2_malformed_stops_scan (pre rest : List (Option HtmlTable))
    (q hc ac : String)
    (hpre : ∀ x ∈ pre, ∃ t, x = some t ∧ tableResult t q hc ac = none) :
    find_server_ip (pre ++ none :: rest) q hc ac
      = ⟨none, [parseErrorMsg]⟩ :=
  (find_server_ip_skip pre (none :: rest) q hc ac hpre).trans rfl

/-- Witness for the amended C2: a skipped non-matching table, then a
malformed one, then a table with the answer — the scan stops at the
malformed table. -/
theorem c2_malformed_stops_scan_witness :
    find_server_ip [some ⟨["Other"], [["x"]]⟩, none,
        some ⟨["Hostname", "IP"], [["web01", "10.0.0.5"]]⟩]
      "web01" "Hostname" "IP" = ⟨none, [parseErrorMsg]⟩ := by
  refine c2_malformed_stops_scan [some ⟨["Other"], [["x"]]⟩]
    [some ⟨["Hostname", "IP"], [["web01", "10.0.0.5"]]⟩]
    "web01" "Hostname" "IP" ?_
  intro x hx
  rw [List.mem_singleton] at hx
  subst hx
  exact ⟨_, rfl, by decide⟩

/-- C6: a document with no tables resolves to absent. -/
theorem c6_no_tables (q hc ac : String) :
    (find_server_ip [] q hc ac).result = none := rfl

/-- C7 as stated is false: the resolver is deterministic but not free of
side effects — on a document whose table fails to parse, the outer
exception handler prints an error line. -/
theorem c7_counterexample :
    (find_server_ip [none] "web01" "Hostname" "IP").printed
      = ["Error parsing table data"] := rfl

/-- C7 amended: the resolver is a deterministic function of its four
inputs — equal inputs give equal results — and its only side effect is
the error line printed when a table fails to parse; on documents whose
tables all parse it prints nothing. -/
theorem c7_deterministic_prints_only_on_parse_failure :
    (∀ (d d' : List (Option HtmlTable)) (q q' hc hc' ac ac' : String),
        d = d' → q = q' → hc = hc' → ac = ac' →
        find_server_ip d q hc ac = find_server_ip d' q' hc' ac') ∧
    (∀ (pts : List HtmlTable) (q hc ac : String),
        (find_server_ip (pts.map some) q hc ac).printed = []) := by
  constructor
  · intro d d' q q' hc hc' ac ac' h1 h2 h3 h4
    subst h1; subst h2; subst h3; subst h4; rfl
  · intro pts q hc ac
    induction pts with
    | nil => rfl
    | cons t pts ih =>
      cases hmm : tableResult t q hc ac with
      | some a =>
        rw [List.map_cons, find_server_ip_cons_some _ _ _ _ _ _ hmm]
      | none =>
        rw [List.map_cons, find_server_ip_cons_none _ _ _ _ _ hmm]
        exact ih

/-- Witness for the amended C7 at concrete inputs. -/
theorem c7_deterministic_witness :
    find_server_ip [] "web01" "Hostname" "IP"
        = find_server_ip [] "web01" "Hostname" "IP" ∧
    (find_server_ip
        ([⟨["Hostname", "IP"], [["web01", "10.0.0.5"]]⟩].map some)
        "web01" "Hostname" "IP").printed = [] :=
  ⟨c7_deterministic_prints_only_on_parse_failure.1 [] [] "web01" "web01"
      "Hostname" "Hostname" "IP" "IP" rfl rfl rfl rfl,
   c7_deterministic_prints_only_on_parse_failure.2
      [⟨["Hostname", "IP"], [["web01", "10.0.0.5"]]⟩] "web01" "Hostname" "IP"⟩

/-- C3: with every table parsed, the resolver returns the stripped address
cell of the first matching row of the first matching table in document
order; the hypotheses constrain nothing after that row or table, so later
duplicate hostnames are never consulted. -/
theorem c3_first_table_first_row (pts : List HtmlTable) (q hc ac : String)
    (i hIdx acIdx j : Nat) (hi : i < pts.length)
    (hskip : ∀ k, k < i → tableResult (pts.getD k ⟨[], []⟩) q hc ac = none)
    (hh : ((pts.getD i ⟨[], []⟩).headers.map pyStrip).findIdx?
        (fun s => s = hc) = some hIdx)
    (ha : ((pts.getD i ⟨[], []⟩).headers.map pyStrip).findIdx?
        (fun s => s = ac) = some acIdx)
    (hj : j < (pts.getD i ⟨[], []⟩).rows.length)
    (hrow : ∀ r, r < j →
        pyStrip (((pts.getD i ⟨[], []⟩).rows.getD r []).getD hIdx "") ≠ q)
    (hq : pyStrip (((pts.getD i ⟨[], []⟩).rows.getD j []).getD hIdx "") = q) :
    (find_server_ip (pts.map some) q hc ac).result
      = some (pyStrip (((pts.getD i ⟨[], []⟩).rows.getD j []).getD acIdx "")) := by
  induction pts generalizing i with
  | nil => exact absurd hi (by simp)
  | cons t pts ih =>
    cases i with
    | zero =>
      have ht := tableResult_first_row t q hc ac hIdx acIdx j
        (by simpa using hh) (by simpa using ha) (by simpa using hj)
        (fun r hr => by simpa using hrow r hr) (by simpa using hq)
      rw [List.map_cons, find_server_ip_cons_some _ _ _ _ _ _ ht]
      simp
    | succ i =>
      have h0 : tableResult t q hc ac = none := by
        have h1 := hskip 0 (Nat.succ_pos i)
        simpa using h1
      rw [List.map_cons, find_server_ip_cons_none _ _ _ _ _ h0]
      have h2 := ih i (by simpa using hi)
        (fun k hk => by
          have h3 := hskip (k + 1) (Nat.succ_lt_succ hk)
          simpa using h3)
        (by simpa using hh) (by simpa using ha) (by simpa using hj)
        (fun r hr => by simpa using hrow r hr) (by simpa using hq)
      simpa using h2

/-- Witness for C3: two tables, duplicate hostnames in both; the first
matching row of the first table wins. -/
theorem c3_first_table_first_row_witness :
    (find_server_ip [some ⟨["Hostname", "IP"],
        [["other", "1.1.1.1"], ["web01", "10.0.0.5"], ["web01", "9.9.9.9"]]⟩,
      some ⟨["Hostname", "IP"], [["web01", "8.8.8.8"]]⟩]
      "web01" "Hostname" "IP").result = some "10.0.0.5" := by
  have h := c3_first_table_first_row
    [⟨["Hostname", "IP"],
        [["other", "1.1.1.1"], ["web01", "10.0.0.5"], ["web01", "9.9.9.9"]]⟩,
     ⟨["Hostname", "IP"], [["web01", "8.8.8.8"]]⟩]
    "web01" "Hostname" "IP" 0 0 1 1 (by decide)
    (fun k hk => absurd hk (Nat.not_lt_zero k))
    (by decide) (by decide) (by decide)
    (fun r hr => by
      have hr0 : r = 0 := by omega
      subst hr0
      decide)
    (by decide)
  exact h.trans (by decide)

/-- C4: a table whose stripped headers contain the hostname column but not
the address column never aborts resolution — the scan continues on the
remaining tables exactly as if that table were absent. -/
theorem c4_missing_address_column (t : HtmlTable)
    (rest : List (Option HtmlTable)) (q hc ac : String)
    (hhc : hc ∈ t.headers.map pyStrip) (hac : ac ∉ t.headers.map pyStrip) :
    find_server_ip (some t :: rest) q hc ac = find_server_ip rest q hc ac := by
  refine find_server_ip_cons_none _ _ _ _ _ ?_
  have hacn : (t.headers.map pyStrip).findIdx? (fun s => s = ac) = none := by
    rw [List.findIdx?_eq_none_iff]
    intro x hx
    simp only [decide_eq_false_iff_not]
    intro hxa
    exact hac (hxa ▸ hx)
  cases hfi : (t.headers.map pyStrip).findIdx? (fun s => s = hc) with
  | none => simp only [tableResult, hfi]
  | some hIdx =>
    simp only [tableResult, hfi, hacn]
    cases t.rows.find? (fun row => pyStrip (row.getD hIdx "") = q) <;> rfl

/-- Witness for C4: the first table has `Hostname` and even a matching
row but no `IP` column; the answer comes from the second table. -/
theorem c4_missing_address_column_witness :
    find_server_ip [some ⟨["Hostname"], [["web01"]]⟩,
        some ⟨["Hostname", "IP"], [["web01", "10.0.0.5"]]⟩]
      "web01" "Hostname" "IP" = ⟨some "10.0.0.5", []⟩ := by
  have h := c4_missing_address_column ⟨["Hostname"], [["web01"]]⟩
    [some ⟨["Hostname", "IP"], [["web01", "10.0.0.5"]]⟩]
    "web01" "Hostname" "IP" (by decide) (by decide)
  exact h.trans (by decide)

/-- C8: an argument vector without exactly one positional argument makes
the program print the usage line and exit with code 1; the conclusion is
independent of every external collaborator, so nothing else runs first. -/
theorem c8_usage_exit (argv : List String) (ext : Externals)
    (h : argv.length ≠ 2) :
    main_run argv ext = ProcResult.exit 1 [usageMsg] := by
  simp [main_run, h]

/-- Witness for C8 with an extra argument and failing collaborators. -/
theorem c8_usage_exit_witness :
    main_run ["script.py", "web01", "extra"]
        ⟨Except.error "ce", Except.error "ee", Except.error "fe"⟩
      = ProcResult.exit 1 [usageMsg] :=
  c8_usage_exit ["script.py", "web01", "extra"]
    ⟨Except.error "ce", Except.error "ee", Except.error "fe"⟩ (by decide)

/-- C10: when resolution yields a non-empty address, the command handed
to `/bin/bash -i -c` is a fixed prefix, the address exactly as resolved,
and a fixed suffix — no quoting, escaping, or sanitization around it. -/
theorem c10_address_embedded_verbatim (name ip : String) (cfg : Config)
    (creds : String × String) (doc : List (Option HtmlTable))
    (h : (find_server_ip doc name cfg.hostname_column_title
        cfg.ip_column_title).result = some ip)
    (hip : ip ≠ "") :
    main_run ["script.py", name]
        ⟨Except.ok cfg, Except.ok creds, Except.ok doc⟩
      = ProcResult.launch
          ["/bin/bash", "-i", "-c",
            "while ! ssh " ++ ip ++ sshLoopSuffix ++ "; exec bash"]
          (printConfigLines cfg
            ++ (find_server_ip doc name cfg.hostname_column_title
                  cfg.ip_column_title).printed
            ++ [ipFoundMsg name ip]) := by
  simp [main_run, h, pyFalsy, hip, bashArgv, sshCommand, String.append_assoc]

/-- Witness for C10: the resolved cell carries shell metacharacters and
they reach the bash command untouched. -/
theorem c10_address_embedded_verbatim_witness :
    main_run ["script.py", "web01"]
        ⟨Except.ok ⟨"u", "p", "Hostname", "IP"⟩, Except.ok ("user", "pass"),
          Except.ok [some ⟨["Hostname", "IP"],
            [["web01", "10.0.0.5; touch owned"]]⟩]⟩
      = ProcResult.launch
          ["/bin/bash", "-i", "-c",
            "while ! ssh " ++ "10.0.0.5; touch owned" ++ sshLoopSuffix
              ++ "; exec bash"]
          (printConfigLines ⟨"u", "p", "Hostname", "IP"⟩
            ++ (find_server_ip [some ⟨["Hostname", "IP"],
                  [["web01", "10.0.0.5; touch owned"]]⟩]
                  "web01" "Hostname" "IP").printed
            ++ [ipFoundMsg "web01" "10.0.0.5; touch owned"]) :=
  c10_address_embedded_verbatim "web01" "10.0.0.5; touch owned"
    ⟨"u", "p", "Hostname", "IP"⟩ ("user", "pass")
    [some ⟨["Hostname", "IP"], [["web01", "10.0.0.5; touch owned"]]⟩]
    (by decide) (by decide)

/-! ## Lemmas for the refined model -/

/-- `Nat.digitChar` never yields a whitespace character. -/
theorem digitChar_not_ws (n : Nat) : (Nat.digitChar n).isWhitespace = false := by
  rcases Nat.lt_or_ge n 16 with h | h
  · interval_cases n <;> decide
  · obtain ⟨m, rfl⟩ : ∃ m, n = m + 16 := ⟨n - 16, by omega⟩
    have h2 : Nat.digitChar (m + 16) = (Char.ofNat 42) := by
      unfold Nat.digitChar
      simp_arith
    rw [h2]
    decide

/-- `Nat.toDigitsCore` keeps its accumulator. -/
theorem toDigitsCore_mem_ds (b : Nat) :
    ∀ (fuel n : Nat) (ds : List Char) (c : Char), c ∈ ds →
      c ∈ Nat.toDigitsCore b fuel n ds
  | 0, _, _, _, h => h
  | fuel + 1, n, ds, c, h => by
    simp only [Nat.toDigitsCore]
    split
    · exact List.mem_cons_of_mem _ h
    · exact toDigitsCore_mem_ds b fuel _ _ c (List.mem_cons_of_mem _ h)

/-- With positive fuel, `Nat.toDigitsCore` emits at least one
non-whitespace character. -/
theorem toDigitsCore_has_nonws (b fuel n : Nat) (ds : List Char) (h : 0 < fuel) :
    ∃ c, c ∈ Nat.toDigitsCore b fuel n ds ∧ c.isWhitespace = false := by
  cases fuel with
  | zero => exact absurd h (by simp)
  | succ fuel =>
    refine ⟨Nat.digitChar (n % b), ?_, digitChar_not_ws _⟩
    simp only [Nat.toDigitsCore]
    split
    · exact List.mem_cons_self _ _
    · exact toDigitsCore_mem_ds b fuel _ _ _ (List.mem_cons_self _ _)

/-- `Nat.repr` contains a non-whitespace character. -/
theorem natRepr_has_nonws (n : Nat) :
    ∃ c, c ∈ (Nat.repr n).data ∧ c.isWhitespace = false := by
  have h := toDigitsCore_has_nonws 10 (n + 1) n [] (Nat.succ_pos n)
  simpa [Nat.repr, Nat.toDigits, List.asString] using h

/-- Python `str()` of an integer contains a non-whitespace character. -/
theorem intToString_has_nonws (n : Int) :
    ∃ c, c ∈ (toString n).data ∧ c.isWhitespace = false := by
  cases n with
  | ofNat m => exact natRepr_has_nonws m
  | negSucc m =>
    obtain ⟨c, hc, hw⟩ := natRepr_has_nonws (m + 1)
    refine ⟨c, ?_, hw⟩
    show c ∈ (("-" : String) ++ toString (m + 1)).data
    rw [String.data_append]
    exact List.mem_append_right _ hc

/-- A non-whitespace character survives `dropWhile Char.isWhitespace`. -/
theorem mem_dropWhile_of_not_ws {c : Char} :
    ∀ (l : List Char), c ∈ l → c.isWhitespace = false →
      c ∈ l.dropWhile Char.isWhitespace
  | [], h, _ => absurd h (List.not_mem_nil c)
  | a :: l, h, hw => by
    by_cases ha : a.isWhitespace
    · rw [List.dropWhile_cons_of_pos ha]
      cases h with
      | head => exact absurd ha (by simp [hw])
      | tail _ h2 => exact mem_dropWhile_of_not_ws l h2 hw
    · rw [List.dropWhile_cons_of_neg ha]
      exact h

/-- A string holding any non-whitespace character does not strip to the
empty string. -/
theorem pyStrip_ne_empty (s : String)
    (h : ∃ c, c ∈ s.data ∧ c.isWhitespace = false) : pyStrip s ≠ "" := by
  obtain ⟨c, hc, hw⟩ := h
  intro he
  have hdata : (((s.data.dropWhile Char.isWhitespace).reverse.dropWhile
      Char.isWhitespace).reverse) = [] := by
    have h1 := congrArg String.data he
    simpa [pyStrip] using h1
  rw [List.reverse_eq_nil_iff, List.dropWhile_eq_nil_iff] at hdata
  have h1 : c ∈ s.data.dropWhile Char.isWhitespace :=
    mem_dropWhile_of_not_ws _ hc hw
  have h2 := hdata c (List.mem_reverse.mpr h1)
  simp [hw] at h2

/-- `str()` of any cell a `read_html` table can hold is non-empty after
stripping: `NaN` gives `nan`, integers give digits, string cells are
non-empty by construction. -/
theorem pyStrip_pdStr_ne_empty (c : PdCell) (hwf : pdCellWf c = true) :
    pyStrip (pdStr c) ≠ "" := by
  cases c with
  | nan => decide
  | intVal n => exact pyStrip_ne_empty _ (intToString_has_nonws n)
  | strVal s =>
    simp only [pdCellWf, Bool.and_eq_true, decide_eq_true_eq] at hwf
    intro he
    exact hwf.2 (hwf.1.symm.trans he)

/-- `pdTableResult` on a table whose stripped headers locate both
columns, whose hostname column is object dtype, and whose first matching
row sits at index `j`: `str()` of that row's parsed address cell comes
back, stripped. -/
theorem pdTableResult_first_row (t : PdTable) (q hc ac : String)
    (hIdx acIdx j : Nat)
    (hh : (t.headers.map pyStrip).findIdx? (fun s => s = hc) = some hIdx)
    (ha : (t.headers.map pyStrip).findIdx? (fun s => s = ac) = some acIdx)
    (hobj : pdColIsObject (t.rows.map (fun row => row.getD hIdx PdCell.nan)) = true)
    (hj : j < t.rows.length)
    (hpre : ∀ r, r < j →
        pdCellMatches ((t.rows.getD r []).getD hIdx PdCell.nan) q = false)
    (hq : pdCellMatches ((t.rows.getD j []).getD hIdx PdCell.nan) q = true) :
    pdTableResult t q hc ac
      = PdTableOutcome.found
          (pyStrip (pdStr ((t.rows.getD j []).getD acIdx PdCell.nan))) := by
  have hfind : t.rows.find? (fun row => pdCellMatches (row.getD hIdx PdCell.nan) q)
      = some (t.rows.getD j []) :=
    find?_first _ [] t.rows j hj hpre hq
  simp only [pdTableResult, hh, hobj, hfind, ha]

/-- Any address the refined loop body returns is `str()` of a cell of
some row of that table, stripped. -/
theorem pdTableResult_found_shape (t : PdTable) (q hc ac ip : String)
    (h : pdTableResult t q hc ac = PdTableOutcome.found ip) :
    ∃ row ipIdx, row ∈ t.rows
      ∧ ip = pyStrip (pdStr (row.getD ipIdx PdCell.nan)) := by
  cases hfi : (t.headers.map pyStrip).findIdx? (fun s => s = hc) with
  | none =>
    simp only [pdTableResult, hfi] at h
    exact PdTableOutcome.noConfusion h
  | some hIdx =>
    cases hobj : pdColIsObject (t.rows.map (fun row => row.getD hIdx PdCell.nan)) with
    | false =>
      simp only [pdTableResult, hfi, hobj] at h
      exact PdTableOutcome.noConfusion h
    | true =>
      cases hfr : t.rows.find?
          (fun row => pdCellMatches (row.getD hIdx PdCell.nan) q) with
      | none =>
        simp only [pdTableResult, hfi, hobj, hfr] at h
        exact PdTableOutcome.noConfusion h
      | some row =>
        cases hfa : (t.headers.map pyStrip).findIdx? (fun s => s = ac) with
        | none =>
          simp only [pdTableResult, hfi, hobj, hfr, hfa] at h
          exact PdTableOutcome.noConfusion h
        | some ipIdx =>
          simp only [pdTableResult, hfi, hobj, hfr, hfa] at h
          injection h with h2
          exact ⟨row, ipIdx, List.mem_of_find?_eq_some hfr, h2.symm⟩

/-- The refined resolver never returns the empty string on a document
`read_html` can produce. -/
theorem find_server_ip_pd_ne_empty (doc : List (Option PdTable)) (q hc ac : String)
    (hwf : pdDocWf doc = true) :
    (find_server_ip_pd doc q hc ac).result ≠ some "" := by
  induction doc with
  | nil => simp [find_server_ip_pd]
  | cons x rest ih =>
    have hrest : pdDocWf rest = true := by
      simp only [pdDocWf, List.all_cons, Bool.and_eq_true] at hwf ⊢
      exact hwf.2
    cases x with
    | none => simp [find_server_ip_pd]
    | some t =>
      cases hres : pdTableResult t q hc ac with
      | next => simpa [find_server_ip_pd, hres] using ih hrest
      | raise => simp [find_server_ip_pd, hres]
      | found ip =>
        obtain ⟨row, ipIdx, hrow, hip⟩ := pdTableResult_found_shape t q hc ac ip hres
        have hrowwf : ∀ x ∈ row, pdCellWf x = true := by
          simp only [pdDocWf, List.all_cons, Bool.and_eq_true] at hwf
          have h1 := hwf.1
          rw [List.all_eq_true] at h1
          have h2 := h1 row hrow
          rw [List.all_eq_true] at h2
          exact h2
        have hcellwf : pdCellWf (row.getD ipIdx PdCell.nan) = true := by
          cases hcell : row[ipIdx]? with
          | none => rw [List.getD_eq_getElem?_getD, hcell]; rfl
          | some c =>
            rw [List.getD_eq_getElem?_getD, hcell]
            exact hrowwf c (List.getElem?_mem hcell)
        have hne := pyStrip_pdStr_ne_empty _ hcellwf
        simp only [find_server_ip_pd, hres]
        intro hcon
        injection hcon with hc2
        exact hne (hip.symm.trans hc2)

/-- C5 as stated is false: `pd.read_html` column inference coerces
numeric-looking cells, so the address is not returned verbatim.  The
HTML cell text `007` in an all-numeric address column parses to the
integer `7`, and the program returns `str()` of that value — `7`,
not `007`. -/
theorem c5_counterexample :
    (find_server_ip_pd [some ⟨["Hostname", "IP"],
        [[PdCell.strVal "web01", PdCell.intVal 7]]⟩]
      "web01" "Hostname" "IP").result = some "7" ∧
    (find_server_ip_pd [some ⟨["Hostname", "IP"],
        [[PdCell.strVal "web01", PdCell.intVal 7]]⟩]
      "web01" "Hostname" "IP").result ≠ some "007" := by
  decide

/-- C5 amended: one table with both configured columns, an object-dtype
hostname column, and a first matching row at index `j`: the resolver
returns Python `str()` of the parsed address cell, stripped, with no
validation that it looks like an IP address — a text cell comes back
verbatim, but an empty cell comes back as `nan` and a cell of an
integer-inferred column as its digits. -/
theorem c5_returns_str_of_parsed_cell (t : PdTable) (q hc ac : String)
    (hIdx acIdx j : Nat)
    (hh : (t.headers.map pyStrip).findIdx? (fun s => s = hc) = some hIdx)
    (ha : (t.headers.map pyStrip).findIdx? (fun s => s = ac) = some acIdx)
    (hobj : pdColIsObject (t.rows.map (fun row => row.getD hIdx PdCell.nan)) = true)
    (hj : j < t.rows.length)
    (hrow : ∀ r, r < j →
        pdCellMatches ((t.rows.getD r []).getD hIdx PdCell.nan) q = false)
    (hq : pdCellMatches ((t.rows.getD j []).getD hIdx PdCell.nan) q = true) :
    (find_server_ip_pd [some t] q hc ac).result
      = some (pyStrip (pdStr ((t.rows.getD j []).getD acIdx PdCell.nan))) := by
  have ht := pdTableResult_first_row t q hc ac hIdx acIdx j hh ha hobj hj hrow hq
  simp only [find_server_ip_pd, ht]

/-- Witness for the amended C5: the address column is integer-inferred
(its HTML texts were `1` and `1,234`), and the match comes back as the
digits `1234`. -/
theorem c5_returns_str_of_parsed_cell_witness :
    (find_server_ip_pd [some ⟨["Hostname", "IP"],
        [[PdCell.strVal "other", PdCell.intVal 1],
         [PdCell.strVal "web01", PdCell.intVal 1234]]⟩]
      "web01" "Hostname" "IP").result = some "1234" := by
  have h := c5_returns_str_of_parsed_cell
    ⟨["Hostname", "IP"],
      [[PdCell.strVal "other", PdCell.intVal 1],
       [PdCell.strVal "web01", PdCell.intVal 1234]]⟩
    "web01" "Hostname" "IP" 0 1 1 (by decide) (by decide) (by decide) (by decide)
    (fun r hr => by
      have hr0 : r = 0 := by omega
      subst hr0
      decide)
    (by decide)
  exact h.trans (by decide)

/-- C9 as stated is false: a matched row whose address cell is empty
does not produce a miss.  `read_html` parses the empty field as `NaN`,
the resolver returns `str(nan).strip()`, i.e. the string `nan`, and the
falsy check of src/ssh.py line 150 does not fire on it — the program
continues to the launch path with address `nan` instead of printing the
not-found message. -/
theorem c9_counterexample :
    (find_server_ip_pd [some ⟨["Hostname", "IP"],
        [[PdCell.strVal "web01", PdCell.nan]]⟩]
      "web01" "Hostname" "IP").result = some "nan" ∧
    pyFalsy (some "nan") = false := by
  decide

/-- C9 amended: the falsy check can fire only on absence — on any
document `read_html` can produce, the resolver never returns the empty
string — and a matched row whose address cell is empty resolves to the
truthy string `nan`, so the program does not treat it as a miss. -/
theorem c9_empty_cell_is_nan_not_miss :
    (∀ (doc : List (Option PdTable)) (q hc ac : String), pdDocWf doc = true →
        (find_server_ip_pd doc q hc ac).result ≠ some "") ∧
    (∀ (t : PdTable) (q hc ac : String) (hIdx acIdx j : Nat),
        (t.headers.map pyStrip).findIdx? (fun s => s = hc) = some hIdx →
        (t.headers.map pyStrip).findIdx? (fun s => s = ac) = some acIdx →
        pdColIsObject (t.rows.map (fun row => row.getD hIdx PdCell.nan)) = true →
        j < t.rows.length →
        (∀ r, r < j →
            pdCellMatches ((t.rows.getD r []).getD hIdx PdCell.nan) q = false) →
        pdCellMatches ((t.rows.getD j []).getD hIdx PdCell.nan) q = true →
        (t.rows.getD j []).getD acIdx PdCell.nan = PdCell.nan →
        (find_server_ip_pd [some t] q hc ac).result = some "nan" ∧
          pyFalsy ((find_server_ip_pd [some t] q hc ac).result) = false) := by
  constructor
  · exact find_server_ip_pd_ne_empty
  · intro t q hc ac hIdx acIdx j hh ha hobj hj hrow hq hnan
    have ht := pdTableResult_first_row t q hc ac hIdx acIdx j hh ha hobj hj hrow hq
    rw [hnan] at ht
    have hres : (find_server_ip_pd [some t] q hc ac).result = some "nan" := by
      simp only [find_server_ip_pd, ht]
      rfl
    exact ⟨hres, by rw [hres]; decide⟩

/-- Witness for the amended C9 at the empty-address-cell document. -/
theorem c9_empty_cell_is_nan_not_miss_witness :
    (find_server_ip_pd [some ⟨["Hostname", "IP"],
        [[PdCell.strVal "web01", PdCell.nan]]⟩]
      "web01" "Hostname" "IP").result ≠ some "" ∧
    ((find_server_ip_pd [some ⟨["Hostname", "IP"],
        [[PdCell.strVal "web01", PdCell.nan]]⟩]
      "web01" "Hostname" "IP").result = some "nan" ∧
      pyFalsy ((find_server_ip_pd [some ⟨["Hostname", "IP"],
        [[PdCell.strVal "web01", PdCell.nan]]⟩]
      "web01" "Hostname" "IP").result) = false) :=
  ⟨c9_empty_cell_is_nan_not_miss.1
      [some ⟨["Hostname", "IP"], [[PdCell.strVal "web01", PdCell.nan]]⟩]
      "web01" "Hostname" "IP" (by decide),
   c9_empty_cell_is_nan_not_miss.2
      ⟨["Hostname", "IP"], [[PdCell.strVal "web01", PdCell.nan]]⟩
      "web01" "Hostname" "IP" 0 1 0 (by decide) (by decide) (by decide) (by decide)
      (fun r hr => absurd hr (Nat.not_lt_zero r)) (by decide) (by decide)⟩
